import Mathlib

/-
Shallow embedding of the pandora-to-spotify migration tool (src/pandora.py,
src/spotify.py, src/main.py).  HTTP transports are modelled as environments
(functions from requests to responses); each client's mutable header/cookie
dictionaries become explicit state threaded through the operations, and each
operation additionally returns the list of HTTP requests it issued, so that
paging, ordering and idempotence properties can be stated about the traces.
Python dicts are association lists with `dict.update` semantics; Python
exceptions become explicit error values threaded alongside the state.
-/

namespace PandoraToSpotify

/-! ### Python dict model

`Dict` models a Python `dict` with string keys and values; `dictSet` is
`d[k] = v` (overwrite in place if present, else append, matching insertion
order semantics) and `dictUpdate` is `d.update(kv)`. -/

abbrev Dict := List (String × String)

/-- `d[k]`-as-lookup (also used for `k in d` via `isSome`): the entry for
`k`, if any.  Keys are unique in every dict the model builds, so the first
match is the entry. -/
def alistGet {α : Type} : List (String × α) → String → Option α
  | [], _ => none
  | p :: d, k => if p.1 = k then some p.2 else alistGet d k

def dictSet (d : Dict) (k v : String) : Dict :=
  if (alistGet d k).isSome then
    d.map (fun p => if p.1 = k then (k, v) else p)
  else
    d ++ [(k, v)]

def dictUpdate (d : Dict) (kv : Dict) : Dict :=
  kv.foldl (fun acc p => dictSet acc p.1 p.2) d

/-- Python exceptions that the modelled code can raise. -/
inductive PyErr where
  | keyError
  | indexError
  | valueError
  | authorizationError
  | songNotFoundError
  deriving DecidableEq, Repr

/-! ## Pandora client (src/pandora.py)

The class-level `headers` and `cookies` dicts are process-wide state shared
by every `PandoraClient` instance; they become an explicit `PandoraState`.
The HTTP transport is a `PandoraEnv` giving the relevant response fields for
each request the client can issue. -/

/-- The requests a `PandoraClient` issues, with the data the code sends. -/
inductive PandoraRequest where
  /-- `requests.head(BASE_URL)` issued by `_get_csrf`. -/
  | headHome
  /-- `POST /auth/login` with a username/password body, issued by `_login`. -/
  | postLogin (username password : String)
  /-- `POST /station/getStationFeedback`; `startIndex` is absent from the
  probe request's body and present in page requests. -/
  | postStationFeedback (stationId : String) (positive : Bool) (pageSize : Nat)
      (startIndex : Option Nat)
  deriving DecidableEq, Repr

/-- One feedback record; the fields `get_liked_songs` reads.  `albumTitle`
and `artistName` may be `None` in the provider's JSON. -/
structure Feedback where
  songTitle : String
  albumTitle : Option String
  artistName : Option String
  deriving DecidableEq, Repr

/-- A `/station/getStationFeedback` response body: the `total` and
`feedback` fields the code reads. -/
structure FeedbackResponse where
  total : Nat
  feedback : List Feedback
  deriving Repr

/-- The Pandora-side world: response content for each request kind. -/
structure PandoraEnv where
  /-- Cookies set by the `HEAD` response on the home page. -/
  homeCookies : Dict
  /-- The `authToken` field of the login response's JSON body, as a function
  of the submitted credentials; `none` models an absent field. -/
  loginAuthToken : String → String → Option String
  /-- The response body for a `getStationFeedback` request. -/
  feedbackResponse : PandoraRequest → FeedbackResponse

/-- The class-level `PandoraClient.headers` / `PandoraClient.cookies` dicts
(process-wide, shared by all instances). -/
structure PandoraState where
  headers : Dict
  cookies : Dict
  deriving DecidableEq, Repr

/-- Result of a stateful Pandora step: requests issued, state as mutated so
far, and the exception raised, if any. -/
structure PandoraStep where
  reqs : List PandoraRequest
  state : PandoraState
  err : Option PyErr
  deriving Repr

/-- `PandoraClient._get_csrf`: skipped entirely when the `X-CsrfToken`
header is already populated; otherwise issues the `HEAD` request, merges its
cookies, and mirrors the `csrftoken` cookie into the header (a missing
cookie is a `KeyError` raised after the cookie merge). -/
def pandora_get_csrf (env : PandoraEnv) (s : PandoraState) : PandoraStep :=
  if (alistGet s.headers "X-CsrfToken").isSome then
    { reqs := [], state := s, err := none }
  else
    let cookies := dictUpdate s.cookies env.homeCookies
    match alistGet cookies "csrftoken" with
    | none =>
      { reqs := [.headHome], state := { s with cookies := cookies }, err := some .keyError }
    | some csrf_token =>
      { reqs := [.headHome],
        state := { headers := dictUpdate s.headers [("X-CsrfToken", csrf_token)],
                   cookies := cookies },
        err := none }

/-- `PandoraClient._login`: skipped entirely when the `X-AuthToken` header
is already populated; otherwise posts the credentials, and either installs
the returned `authToken` as a header or — when the JSON body lacks the
field (the `KeyError` branch) — raises `AuthorizationError`. -/
def pandora_login (env : PandoraEnv) (username password : String) (s : PandoraState) :
    PandoraStep :=
  if (alistGet s.headers "X-AuthToken").isSome then
    { reqs := [], state := s, err := none }
  else
    match env.loginAuthToken username password with
    | none =>
      { reqs := [.postLogin username password], state := s, err := some .authorizationError }
    | some auth_token =>
      { reqs := [.postLogin username password],
        state := { s with headers := dictUpdate s.headers [("X-AuthToken", auth_token)] },
        err := none }

/-- `PandoraClient.__init__`: `_get_csrf` then `_login`; an exception in the
first step propagates and skips the second. -/
def pandoraClient_init (env : PandoraEnv) (username password : String) (s : PandoraState) :
    PandoraStep :=
  let step1 := pandora_get_csrf env s
  match step1.err with
  | some e => { reqs := step1.reqs, state := step1.state, err := some e }
  | none =>
    let step2 := pandora_login env username password step1.state
    { reqs := step1.reqs ++ step2.reqs, state := step2.state, err := step2.err }

/-- `PandoraClient.get_station_feedbacks`: probe with page size 1 to learn
the total, then fetch `ceil(total / 10)` pages at start offsets `i * 10`,
concatenating the `feedback` arrays.  Returns the issued requests and the
accumulated list.  (`_send` only reads the shared headers/cookies, so the
state is not threaded here.) -/
def get_station_feedbacks (env : PandoraEnv) (station_id : String)
    (positive : Bool := true) : List PandoraRequest × List Feedback :=
  let page_size := 10
  let base_request := fun si =>
    PandoraRequest.postStationFeedback station_id positive page_size si
  let size_request := PandoraRequest.postStationFeedback station_id positive 1 none
  let total_feedbacks := (env.feedbackResponse size_request).total
  (List.range ((total_feedbacks + page_size - 1) / page_size)).foldl
    (fun acc i =>
      let feedback_request := base_request (some (i * page_size))
      (acc.1 ++ [feedback_request],
       acc.2 ++ (env.feedbackResponse feedback_request).feedback))
    ([size_request], [])

/-! ## Spotify client (src/spotify.py)

`SpotifyClient.headers` and `_user_id` become an explicit `SpotifyState`;
`_send` returns both the mutated state and the request it issued (with the
headers it actually carried), so header-leak effects are visible in the
trace.  Python truthiness tests (`if artist:`, `if self._user_id:`,
`if extra_headers:`) are modelled by `pyTruthy`. -/

/-- Python truthiness of an optional string: `None` and `""` are falsy. -/
def pyTruthy : Option String → Bool
  | none => false
  | some s => !(s == "")

/-- Python truthiness of an optional dict: `None` and `{}` are falsy. -/
def dictTruthy : Option Dict → Bool
  | none => false
  | some d => !d.isEmpty

/-- HTTP methods actually passed to `SpotifyClient._send` (every call site
passes the literal `"GET"` or `"POST"`, so the `ValueError` branch for other
methods is unreachable in the modelled code). -/
inductive Method where
  | GET
  | POST
  deriving DecidableEq, Repr

/-- The JSON body strings the client sends (`json.dumps(...)` payloads),
modelled by their content; `create_playlist` always sends
`{"name": name, "public": false}`. -/
inductive ReqBody where
  | playlistCreate (name : String) (isPublic : Bool)
  deriving DecidableEq, Repr

/-- One HTTP request issued by `SpotifyClient._send`, recording the headers
dict passed to the transport. -/
structure SpotifyRequest where
  endpoint : String
  method : Method
  headers : Dict
  params : Dict
  data : Option ReqBody
  deriving DecidableEq, Repr

/-- A search hit; the field `find_song_uri` reads. -/
structure Track where
  uri : String
  deriving DecidableEq, Repr

/-- The `tracks` object of a `/search` response: the `total` and `items`
fields the code reads. -/
structure SearchResponse where
  total : Nat
  items : List Track
  deriving Repr

/-- The Spotify-side world for data operations: response content for each
endpoint the client reads a body from. -/
structure SpotifyEnv where
  /-- The `id` field of the `/me` response. -/
  meId : String
  /-- The `tracks` object of a `/search` response, as a function of the `q`
  query parameter. -/
  searchTracks : String → SearchResponse
  /-- The `id` field of a playlist-creation response, as a function of the
  requested playlist name. -/
  playlistId : String → String

/-- The instance state of a `SpotifyClient`: its `headers` dict and the
cached `_user_id`. -/
structure SpotifyState where
  headers : Dict
  userId : Option String
  deriving DecidableEq, Repr

/-- `SpotifyClient._send`: the local `headers` variable aliases
`self.headers`, so a truthy `extra_headers` argument is merged permanently
into the instance's dict; the request goes out with that same dict. -/
def spotify_send (s : SpotifyState) (endpoint : String) (method : Method)
    (extra_headers : Option Dict := none) (params : Dict := [])
    (data : Option ReqBody := none) : SpotifyState × SpotifyRequest :=
  let headers :=
    if dictTruthy extra_headers then dictUpdate s.headers (extra_headers.getD [])
    else s.headers
  ({ s with headers := headers },
   { endpoint := endpoint, method := method, headers := headers,
     params := params, data := data })

/-- The query string `search_song` builds: `track:{name}`, then
` artist:{artist}` when `artist` is truthy, then ` album:{album}` when
`album` is truthy. -/
def searchQuery (name : String) (album : Option String := none)
    (artist : Option String := none) : String :=
  let query := "track:" ++ name
  let query := if pyTruthy artist then query ++ " artist:" ++ artist.getD "" else query
  let query := if pyTruthy album then query ++ " album:" ++ album.getD "" else query
  query

/-- `SpotifyClient.search_song`: GET `/search` with the built query; raises
`SongNotFoundError` exactly when the response's `tracks.total` is zero,
otherwise returns `tracks.items`. -/
def search_song (env : SpotifyEnv) (s : SpotifyState) (name : String)
    (album : Option String := none) (artist : Option String := none) :
    SpotifyState × List SpotifyRequest × Except PyErr (List Track) :=
  let query := searchQuery name album artist
  let (s1, req) := spotify_send s "/search" .GET none [("q", query), ("type", "track")] none
  let tracks := env.searchTracks query
  if tracks.total = 0 then (s1, [req], .error .songNotFoundError)
  else (s1, [req], .ok tracks.items)

/-- A song dict (`name` required; `album`/`artist` may be `None`). -/
structure Song where
  name : String
  album : Option String
  artist : Option String
  deriving DecidableEq, Repr

/-- `SpotifyClient.find_song_uri`: search by name+artist; only a
`SongNotFoundError` from that attempt is caught, triggering a single retry
by name+album+artist; then `tracks[0]["uri"]` of whichever attempt
succeeded (an empty `items` list despite nonzero `total` would be an
`IndexError`). -/
def find_song_uri (env : SpotifyEnv) (s : SpotifyState) (song : Song) :
    SpotifyState × List SpotifyRequest × Except PyErr String :=
  let (s1, r1, t1) := search_song env s song.name none song.artist
  let (s2, rs, tracks) :=
    match t1 with
    | .error .songNotFoundError =>
      let (s2, r2, t2) := search_song env s1 song.name song.album song.artist
      (s2, r1 ++ r2, t2)
    | other => (s1, r1, other)
  match tracks with
  | .error e => (s2, rs, .error e)
  | .ok [] => (s2, rs, .error .indexError)
  | .ok (result :: _) => (s2, rs, .ok result.uri)

/-- `SpotifyClient.get_current_user`: returns the cached `_user_id` when it
is truthy, otherwise GETs `/me`, caches and returns its `id` field. -/
def get_current_user (env : SpotifyEnv) (s : SpotifyState) :
    SpotifyState × List SpotifyRequest × String :=
  if pyTruthy s.userId then (s, [], s.userId.getD "")
  else
    let (s1, req) := spotify_send s "/me" .GET none [] none
    let user_id := env.meId
    ({ s1 with userId := some user_id }, [req], user_id)

/-- `SpotifyClient.create_playlist`: resolve the user id (cached after the
first lookup), POST the playlist payload with a `Content-Type` extra header
(the preceding `headers = self.headers; headers.update()` pair in the
source is a no-op), and return the response's `id` field. -/
def create_playlist (env : SpotifyEnv) (s : SpotifyState) (name : String) :
    SpotifyState × List SpotifyRequest × String :=
  let (s1, r1, user_id) := get_current_user env s
  let endpoint := "/users/" ++ user_id ++ "/playlists"
  let (s2, req) := spotify_send s1 endpoint .POST
    (some [("Content-Type", "application/json")]) []
    (some (.playlistCreate name false))
  (s2, r1 ++ [req], env.playlistId name)

/-- `SpotifyClient.add_song_to_playlist`: POST the track URI to the
playlist's tracks collection. -/
def add_song_to_playlist (s : SpotifyState) (song_uri playlist_id : String) :
    SpotifyState × List SpotifyRequest :=
  let endpoint := "/playlists/" ++ playlist_id ++ "/tracks"
  let (s1, req) := spotify_send s endpoint .POST none [("uris", song_uri)] none
  (s1, [req])

/-- `SpotifyClient.import_song`: find the song's URI, then add it to the
playlist; a `SongNotFoundError` (or any other error) from the lookup
propagates and the addition is not attempted. -/
def import_song (env : SpotifyEnv) (s : SpotifyState) (song : Song)
    (playlist_id : String) : SpotifyState × List SpotifyRequest × Option PyErr :=
  let (s1, r1, res) := find_song_uri env s song
  match res with
  | .error e => (s1, r1, some e)
  | .ok song_uri =>
    let (s2, r2) := add_song_to_playlist s1 song_uri playlist_id
    (s2, r1 ++ r2, none)

/-- A song group dict: a `name` and a `songs` list. -/
structure SongGroup where
  name : String
  songs : List Song
  deriving Repr

/-- The `for song in group["songs"]` loop of `import_song_group`: songs are
imported sequentially in list order and the first error aborts the loop. -/
def groupImportLoop (env : SpotifyEnv) (s : SpotifyState) (songs : List Song)
    (playlist_id : String) : SpotifyState × List SpotifyRequest × Option PyErr :=
  match songs with
  | [] => (s, [], none)
  | song :: rest =>
    let (s1, r1, e) := import_song env s song playlist_id
    match e with
    | some err => (s1, r1, some err)
    | none =>
      let (s2, r2, e2) := groupImportLoop env s1 rest playlist_id
      (s2, r1 ++ r2, e2)

/-- `SpotifyClient.import_song_group`: create the playlist named after the
group, then run the sequential song loop against the new playlist id. -/
def import_song_group (env : SpotifyEnv) (s : SpotifyState) (group : SongGroup) :
    SpotifyState × List SpotifyRequest × Option PyErr :=
  let (s1, r1, playlist_id) := create_playlist env s group.name
  let (s2, r2, e) := groupImportLoop env s1 group.songs playlist_id
  (s2, r1 ++ r2, e)

/-! ## Spotify authentication (src/spotify.py, `# Begin Authentication`)

The token endpoint, the refresh-token cache file and the interactive
browser/`input()` step are external collaborators, modelled by a
`SpotifyAuthEnv`. -/

/-- `SpotifyClient.AUTH_REDIRECT_URI`. -/
def AUTH_REDIRECT_URI : String := "http://localhost/auth/"

/-- A token-endpoint response: its status code and the two JSON body fields
the code reads (`none` models an absent field). -/
structure TokenResponse where
  status : Nat
  access_token : Option String
  refresh_token : Option String
  deriving Repr

/-- The world `_authorize` interacts with. -/
structure SpotifyAuthEnv where
  /-- Contents of `AUTH_CACHE_FILE`; `none` models `FileNotFoundError`. -/
  cacheFile : Option String
  /-- Token-endpoint response to a `refresh_token` grant, keyed by the
  submitted refresh token. -/
  tokenForRefresh : String → TokenResponse
  /-- Token-endpoint response to an `authorization_code` grant, keyed by
  the submitted code. -/
  tokenForCode : String → TokenResponse
  /-- The redirect URL string the operator types at the `input()` prompt. -/
  userRedirect : String

/-- `SpotifyClient._handle_auth_response`: non-200 is an
`AuthorizationError`; otherwise the `access_token` field is read (a missing
field is a `KeyError`) and installed by *replacing* `self.headers` with a
single Bearer `Authorization` entry. -/
def handle_auth_response (s : SpotifyState) (response : TokenResponse) :
    SpotifyState × Option PyErr :=
  if response.status ≠ 200 then (s, some .authorizationError)
  else
    match response.access_token with
    | none => (s, some .keyError)
    | some access_token =>
      ({ s with headers := [("Authorization", "Bearer " ++ access_token)] }, none)

/-- `SpotifyClient._refresh_auth`: a missing cache file becomes an
`AuthorizationError`; otherwise the cached token is exchanged and the
response handled by `handle_auth_response`. -/
def spotify_refresh_auth (aenv : SpotifyAuthEnv) (s : SpotifyState) :
    SpotifyState × Option PyErr :=
  match aenv.cacheFile with
  | none => (s, some .authorizationError)
  | some cached => handle_auth_response s (aenv.tokenForRefresh cached)

/-- `re.match` of a pattern made only of literal characters: a prefix match
at the start of the string (character-based). -/
def reMatchStart (pat s : String) : Bool :=
  pat.data.isPrefixOf s.data

/-- Drop the first `n` characters of a string (the remainder a trailing
`(.*)` group captures after a matched literal prefix of `n` characters). -/
def strDropChars (s : String) (n : Nat) : String :=
  String.mk (s.data.drop n)

/-- `SpotifyClient._authorize_user`: after the interactive step returns the
redirect string, `re.match` against `{AUTH_REDIRECT_URI}\?code=(.*)` and
`{AUTH_REDIRECT_URI}\?error=access_denied` (both patterns are literal
prefixes, since the URI contains no regex metacharacters and `re.match`
anchors at the start only).  A deny match raises first; then a failed
accept match raises; otherwise group 1 — the remainder after `?code=` — is
the auth code. -/
def authorize_user (aenv : SpotifyAuthEnv) : Except PyErr String :=
  let redirect := aenv.userRedirect
  let accept_match := reMatchStart (AUTH_REDIRECT_URI ++ "?code=") redirect
  let deny_match := reMatchStart (AUTH_REDIRECT_URI ++ "?error=access_denied") redirect
  if deny_match then .error .authorizationError
  else if !accept_match then .error .authorizationError
  else .ok (strDropChars redirect (AUTH_REDIRECT_URI ++ "?code=").length)

/-- Outcome of `_authorize`: final client state, the refresh token written
to `AUTH_CACHE_FILE` (if any), and the exception propagated (if any). -/
structure AuthStep where
  state : SpotifyState
  fileWritten : Option String
  err : Option PyErr
  deriving Repr

/-- The fallback half of `_authorize` (everything after the `except` block):
run the interactive step, exchange the code, handle the response, then read
and persist the response's `refresh_token` field. -/
def authorize_code_path (aenv : SpotifyAuthEnv) (s : SpotifyState) : AuthStep :=
  match authorize_user aenv with
  | .error e => { state := s, fileWritten := none, err := some e }
  | .ok user_auth_code =>
    let response := aenv.tokenForCode user_auth_code
    let h := handle_auth_response s response
    match h.2 with
    | some e => { state := h.1, fileWritten := none, err := some e }
    | none =>
      match response.refresh_token with
      | none => { state := h.1, fileWritten := none, err := some .keyError }
      | some rt => { state := h.1, fileWritten := some rt, err := none }

/-- `SpotifyClient._authorize`: try the refresh path and return on success;
only an `AuthorizationError` from it is caught (`except AuthorizationError:
pass`), falling through to the interactive code path; any other exception
propagates. -/
def spotify_authorize (aenv : SpotifyAuthEnv) (s : SpotifyState) : AuthStep :=
  let r := spotify_refresh_auth aenv s
  match r.2 with
  | none => { state := r.1, fileWritten := none, err := none }
  | some .authorizationError => authorize_code_path aenv r.1
  | some e => { state := r.1, fileWritten := none, err := some e }

/-! ## Orchestrator (src/main.py)

Only the `debug` computation and the single-station filter are modelled;
`configparser` section access raises `KeyError` for a missing section,
while `SectionProxy.getboolean` returns its default fallback `None` for a
missing option and raises `ValueError` for an unparseable one. -/

/-- A parsed configuration file: named sections of key/value pairs. -/
structure ConfigFile where
  sections : List (String × Dict)
  deriving Repr

/-- `config[name]`: `KeyError` when the section is absent. -/
def configSection (config : ConfigFile) (name : String) : Option Dict :=
  alistGet config.sections name

/-- `configparser`'s `BOOLEAN_STATES` conversion (case-insensitive). -/
def convertToBoolean (v : String) : Option Bool :=
  let lower := v.toLower
  if lower = "1" ∨ lower = "yes" ∨ lower = "true" ∨ lower = "on" then some true
  else if lower = "0" ∨ lower = "no" ∨ lower = "false" ∨ lower = "off" then some false
  else none

/-- `SectionProxy.getboolean(option)`: missing option returns the default
fallback `None` (no exception); a present but unparseable value raises
`ValueError`. -/
def getboolean (sec : Dict) (option : String) : Except PyErr (Option Bool) :=
  match alistGet sec option with
  | none => .ok none
  | some v =>
    match convertToBoolean v with
    | some b => .ok (some b)
    | none => .error .valueError

/-- The value the orchestrator's `debug` variable can hold: Python `None`
(from the missing-option fallback) or a bool. -/
inductive DebugVal where
  | noneV
  | boolV (b : Bool)
  deriving DecidableEq, Repr

/-- Python truthiness of the `debug` variable. -/
def DebugVal.truthy : DebugVal → Bool
  | .noneV => false
  | .boolV b => b

/-- The `try: ... except KeyError: debug = False` block of src/main.py:
a missing `[app]` section's `KeyError` is caught and yields `False`; a
missing `debug` option yields `None` via the `getboolean` fallback; an
unparseable value's `ValueError` is not caught. -/
def computeDebug (config : ConfigFile) : Except PyErr DebugVal :=
  match configSection config "app" with
  | none => .ok (.boolV false)
  | some app_config =>
    match getboolean app_config "debug" with
    | .error e => .error e
    | .ok none => .ok .noneV
    | .ok (some b) => .ok (.boolV b)

/-- A station dict, as used by the orchestrator's debug filter. -/
structure Station where
  stationId : String
  deriving DecidableEq, Repr

/-- The `if debug:` single-station filter of src/main.py. -/
def debugFilter (debug : DebugVal) (stations : List Station) : List Station :=
  if debug.truthy then
    stations.filter (fun station => station.stationId == "894519264273116392")
  else stations

/-! ### Named request shapes

The concrete requests each call site of `_send` produces, used to state
trace properties; each mirrors the corresponding call in src/spotify.py. -/

/-- The `GET /me` request `get_current_user` issues. -/
def meRequest (s : SpotifyState) : SpotifyRequest :=
  { endpoint := "/me", method := .GET, headers := s.headers, params := [], data := none }

/-- The playlist-creation POST `create_playlist` issues (its extra
`Content-Type` header is merged into the instance headers by `_send`). -/
def createPlaylistRequest (s : SpotifyState) (user_id name : String) : SpotifyRequest :=
  { endpoint := "/users/" ++ user_id ++ "/playlists", method := .POST,
    headers := dictUpdate s.headers [("Content-Type", "application/json")],
    params := [], data := some (.playlistCreate name false) }

/-- The `GET /search` request `search_song` issues for a query. -/
def searchRequest (s : SpotifyState) (query : String) : SpotifyRequest :=
  { endpoint := "/search", method := .GET, headers := s.headers,
    params := [("q", query), ("type", "track")], data := none }

/-- The track-addition POST `add_song_to_playlist` issues. -/
def addTrackRequest (s : SpotifyState) (song_uri playlist_id : String) : SpotifyRequest :=
  { endpoint := "/playlists/" ++ playlist_id ++ "/tracks", method := .POST,
    headers := s.headers, params := [("uris", song_uri)], data := none }

/-- The search queries `find_song_uri` tries for a song, in order: the
name+artist query, then — exactly when that query's `total` is zero — the
name+album+artist query. -/
def find_song_queries (env : SpotifyEnv) (song : Song) : List String :=
  let q1 := searchQuery song.name none song.artist
  if (env.searchTracks q1).total = 0 then
    [q1, searchQuery song.name song.album song.artist]
  else [q1]

/-- The outcome of `find_song_uri`, which depends only on the world (the
client state is neither read nor written by it); anchored at the empty
state. -/
def find_song_result (env : SpotifyEnv) (song : Song) : Except PyErr String :=
  (find_song_uri env { headers := [], userId := none } song).2.2

/-- The payload of a successful lookup (`""` for an error); lets abort
traces be written in closed form. -/
def okOrEmpty : Except PyErr String → String
  | .ok u => u
  | .error _ => ""

/-- Whether a request is a playlist-creation request (it carries the
playlist JSON body; no other request has a body). -/
def isPlaylistCreateReq (r : SpotifyRequest) : Bool :=
  match r.data with
  | some (.playlistCreate _ _) => true
  | none => false

/-! ## Helper lemmas -/

theorem alistGet_append {α : Type} (d1 d2 : List (String × α)) (k : String) :
    alistGet (d1 ++ d2) k
      = match alistGet d1 k with
        | some v => some v
        | none => alistGet d2 k := by
  induction d1 with
  | nil => simp [alistGet]
  | cons p d ih =>
    by_cases hp : p.1 = k <;> simp [alistGet, hp, ih]

theorem alistGet_map_set_of_mem (d : Dict) (k v : String)
    (h : (alistGet d k).isSome) :
    alistGet (d.map (fun p => if p.1 = k then (k, v) else p)) k = some v := by
  induction d with
  | nil => simp [alistGet] at h
  | cons p d ih =>
    by_cases hp : p.1 = k
    · simp [alistGet, hp]
    · simp only [alistGet, hp, if_neg, ite_false] at h
      simp [alistGet, hp, ih h]

theorem alistGet_dictSet_self (d : Dict) (k v : String) :
    alistGet (dictSet d k v) k = some v := by
  rw [dictSet]
  by_cases h : (alistGet d k).isSome
  · rw [if_pos h]
    exact alistGet_map_set_of_mem d k v h
  · rw [if_neg h, alistGet_append]
    have h0 : alistGet d k = none := by
      cases heq : alistGet d k with
      | none => rfl
      | some w => rw [heq] at h; simp at h
    rw [h0]
    simp [alistGet]

theorem alistGet_map_set_ne (d : Dict) (k v k' : String) (h : k' ≠ k) :
    alistGet (d.map (fun p => if p.1 = k then (k, v) else p)) k' = alistGet d k' := by
  have hk : ¬(k = k') := fun hkk => h hkk.symm
  induction d with
  | nil => rfl
  | cons p d ih =>
    by_cases hp : p.1 = k
    · simpa [alistGet, hp, hk] using ih
    · simp only [List.map_cons, if_neg hp, alistGet]
      by_cases hp' : p.1 = k'
      · simp [hp']
      · simp only [hp', ite_false]
        exact ih

theorem alistGet_dictSet_ne (d : Dict) (k v k' : String) (h : k' ≠ k) :
    alistGet (dictSet d k v) k' = alistGet d k' := by
  have hk : ¬(k = k') := fun hkk => h hkk.symm
  rw [dictSet]
  by_cases hmem : (alistGet d k).isSome
  · rw [if_pos hmem]
    exact alistGet_map_set_ne d k v k' h
  · rw [if_neg hmem, alistGet_append]
    cases heq : alistGet d k' with
    | some w => rfl
    | none => simp [alistGet, hk]

theorem dictUpdate_single (d : Dict) (k v : String) :
    dictUpdate d [(k, v)] = dictSet d k v := rfl

theorem foldl_pages {α β : Type} (n : Nat) (f : Nat → α) (g : Nat → List β)
    (r0 : List α) (b0 : List β) :
    (List.range n).foldl (fun acc i => (acc.1 ++ [f i], acc.2 ++ g i)) (r0, b0)
      = (r0 ++ (List.range n).map f, b0 ++ ((List.range n).map g).flatten) := by
  induction n with
  | zero => simp
  | succ n ih =>
    rw [List.range_succ, List.foldl_append, ih]
    simp

/-! ## Claim C1: paging in `get_station_feedbacks` -/

/-- C1: for every total `T` reported by the size probe (sent with page size
1), `get_station_feedbacks` issues exactly `⌈T/10⌉` page requests after the
probe, the `i`-th carrying `startIndex = i * 10`, and returns the
concatenation of the page responses' `feedback` arrays in page order; for
`T = 0` no request beyond the probe is issued and the result is empty. -/
theorem get_station_feedbacks_paging (env : PandoraEnv) (station_id : String)
    (positive : Bool) :
    (get_station_feedbacks env station_id positive).1
        = PandoraRequest.postStationFeedback station_id positive 1 none
          :: (List.range
                ((env.feedbackResponse
                    (.postStationFeedback station_id positive 1 none)).total ⌈/⌉ 10)).map
              (fun i => .postStationFeedback station_id positive 10 (some (i * 10)))
    ∧ (get_station_feedbacks env station_id positive).2
        = ((List.range
              ((env.feedbackResponse
                  (.postStationFeedback station_id positive 1 none)).total ⌈/⌉ 10)).map
            (fun i => (env.feedbackResponse
                (.postStationFeedback station_id positive 10 (some (i * 10)))).feedback)).flatten
    ∧ ((env.feedbackResponse (.postStationFeedback station_id positive 1 none)).total = 0 →
        get_station_feedbacks env station_id positive
          = ([.postStationFeedback station_id positive 1 none], [])) := by
  have hceil : ∀ t : Nat, (t + 10 - 1) / 10 = t ⌈/⌉ 10 := fun t =>
    (Nat.ceilDiv_eq_add_pred_div t 10).symm
  have key : get_station_feedbacks env station_id positive
      = (PandoraRequest.postStationFeedback station_id positive 1 none
          :: (List.range
                ((env.feedbackResponse
                    (.postStationFeedback station_id positive 1 none)).total ⌈/⌉ 10)).map
              (fun i => .postStationFeedback station_id positive 10 (some (i * 10))),
         ((List.range
              ((env.feedbackResponse
                  (.postStationFeedback station_id positive 1 none)).total ⌈/⌉ 10)).map
            (fun i => (env.feedbackResponse
                (.postStationFeedback station_id positive 10 (some (i * 10)))).feedback)).flatten) := by
    unfold get_station_feedbacks
    rw [foldl_pages, hceil]
    simp
  refine ⟨by rw [key], by rw [key], fun h0 => ?_⟩
  rw [key, h0]
  simp [Nat.ceilDiv_eq_add_pred_div]

/-- Witness for C1 at a world whose probe reports total 0: only the probe
request is issued and the result is empty. -/
theorem get_station_feedbacks_paging_witness :
    get_station_feedbacks
        { homeCookies := [], loginAuthToken := fun _ _ => none,
          feedbackResponse := fun _ => { total := 0, feedback := [] } }
        "station0" true
      = ([.postStationFeedback "station0" true 1 none], []) :=
  (get_station_feedbacks_paging
    { homeCookies := [], loginAuthToken := fun _ _ => none,
      feedbackResponse := fun _ => { total := 0, feedback := [] } }
    "station0" true).2.2 rfl

/-! ## Claim C7: missing `authToken` in the login response -/

/-- C7: during construction with the CSRF header already in place and no
auth token installed yet, a login response lacking the `authToken` field
makes the constructor raise `AuthorizationError` after the single login
request, leaving the headers untouched (no auth header, no retry). -/
theorem pandora_login_missing_token_fatal (env : PandoraEnv) (u p : String)
    (s : PandoraState)
    (hcsrf : (alistGet s.headers "X-CsrfToken").isSome = true)
    (hauth : alistGet s.headers "X-AuthToken" = none)
    (htok : env.loginAuthToken u p = none) :
    pandoraClient_init env u p s
      = { reqs := [.postLogin u p], state := s, err := some .authorizationError } := by
  unfold pandoraClient_init pandora_get_csrf pandora_login
  rw [if_pos hcsrf]
  simp [htok, hauth]

/-- Witness for C7 at a concrete state and world. -/
theorem pandora_login_missing_token_fatal_witness :
    pandoraClient_init
        { homeCookies := [], loginAuthToken := fun _ _ => none,
          feedbackResponse := fun _ => { total := 0, feedback := [] } }
        "user" "pw" { headers := [("X-CsrfToken", "c")], cookies := [] }
      = { reqs := [.postLogin "user" "pw"],
          state := { headers := [("X-CsrfToken", "c")], cookies := [] },
          err := some .authorizationError } :=
  pandora_login_missing_token_fatal
    { homeCookies := [], loginAuthToken := fun _ _ => none,
      feedbackResponse := fun _ => { total := 0, feedback := [] } }
    "user" "pw" { headers := [("X-CsrfToken", "c")], cookies := [] }
    rfl rfl rfl

/-! ## Claim C10: second construction is a process-scope no-op -/

theorem pandora_get_csrf_success_headers (env : PandoraEnv) (s : PandoraState)
    (h : (pandora_get_csrf env s).err = none) :
    (alistGet (pandora_get_csrf env s).state.headers "X-CsrfToken").isSome = true
    ∧ ∀ k, k ≠ "X-CsrfToken" →
        alistGet (pandora_get_csrf env s).state.headers k = alistGet s.headers k := by
  unfold pandora_get_csrf at h ⊢
  by_cases hc : (alistGet s.headers "X-CsrfToken").isSome
  · rw [if_pos hc] at h ⊢
    exact ⟨hc, fun k _ => rfl⟩
  · rw [if_neg hc] at h ⊢
    cases heq : alistGet (dictUpdate s.cookies env.homeCookies) "csrftoken" with
    | none => simp only [heq] at h; simp at h
    | some tok =>
      simp only [heq] at h ⊢
      constructor
      · simp [dictUpdate_single, alistGet_dictSet_self]
      · intro k hk
        simp [dictUpdate_single, alistGet_dictSet_ne _ _ _ _ hk]

theorem pandora_login_success_headers (env : PandoraEnv) (u p : String)
    (s : PandoraState) (h : (pandora_login env u p s).err = none) :
    (alistGet (pandora_login env u p s).state.headers "X-AuthToken").isSome = true
    ∧ ∀ k, k ≠ "X-AuthToken" →
        alistGet (pandora_login env u p s).state.headers k = alistGet s.headers k := by
  unfold pandora_login at h ⊢
  by_cases ha : (alistGet s.headers "X-AuthToken").isSome
  · rw [if_pos ha] at h ⊢
    exact ⟨ha, fun k _ => rfl⟩
  · rw [if_neg ha] at h ⊢
    cases heq : env.loginAuthToken u p with
    | none => simp only [heq] at h; simp at h
    | some tok =>
      simp only [heq] at h ⊢
      constructor
      · simp [dictUpdate_single, alistGet_dictSet_self]
      · intro k hk
        simp [dictUpdate_single, alistGet_dictSet_ne _ _ _ _ hk]

theorem pandoraClient_init_success (env : PandoraEnv) (u p : String)
    (s s1 : PandoraState) (reqs : List PandoraRequest)
    (h : pandoraClient_init env u p s = ⟨reqs, s1, none⟩) :
    (alistGet s1.headers "X-CsrfToken").isSome = true
    ∧ (alistGet s1.headers "X-AuthToken").isSome = true := by
  unfold pandoraClient_init at h
  cases herr : (pandora_get_csrf env s).err with
  | some e => simp only [herr] at h; simp at h
  | none =>
    simp only [herr] at h
    simp only [PandoraStep.mk.injEq] at h
    obtain ⟨-, hstate, herr2⟩ := h
    have hlog := pandora_login_success_headers env u p
      (pandora_get_csrf env s).state (by rw [herr2])
    have hcs := pandora_get_csrf_success_headers env s herr
    constructor
    · rw [← hstate, hlog.2 "X-CsrfToken" (by decide)]
      exact hcs.1
    · rw [← hstate]
      exact hlog.1

/-- C10: the class-level header/cookie dicts are process-wide, and both
authentication steps skip themselves when their header key is present; any
construction after a successful one issues no HTTP request and leaves the
shared state unchanged, whatever credentials (and whatever world) the second
constructor sees. -/
theorem pandoraClient_init_second_construction_noop
    (env env2 : PandoraEnv) (u p u2 p2 : String) (s s1 : PandoraState)
    (reqs : List PandoraRequest)
    (h : pandoraClient_init env u p s = ⟨reqs, s1, none⟩) :
    pandoraClient_init env2 u2 p2 s1 = ⟨[], s1, none⟩ := by
  obtain ⟨hc, ha⟩ := pandoraClient_init_success env u p s s1 reqs h
  unfold pandoraClient_init pandora_get_csrf pandora_login
  rw [if_pos hc]
  simp [if_pos ha]

/-- Witness for C10: after one fully-authenticated construction, a second
construction with different credentials is a silent no-op. -/
theorem pandoraClient_init_second_construction_noop_witness :
    pandoraClient_init
        { homeCookies := [("csrftoken", "c")], loginAuthToken := fun _ _ => some "tok",
          feedbackResponse := fun _ => { total := 0, feedback := [] } }
        "other-user" "other-pw"
        { headers := [("X-CsrfToken", "c"), ("X-AuthToken", "tok")],
          cookies := [("csrftoken", "c")] }
      = ⟨[], { headers := [("X-CsrfToken", "c"), ("X-AuthToken", "tok")],
               cookies := [("csrftoken", "c")] }, none⟩ :=
  pandoraClient_init_second_construction_noop
    { homeCookies := [("csrftoken", "c")], loginAuthToken := fun _ _ => some "tok",
      feedbackResponse := fun _ => { total := 0, feedback := [] } }
    { homeCookies := [("csrftoken", "c")], loginAuthToken := fun _ _ => some "tok",
      feedbackResponse := fun _ => { total := 0, feedback := [] } }
    "user" "pw" "other-user" "other-pw"
    { headers := [], cookies := [] }
    { headers := [("X-CsrfToken", "c"), ("X-AuthToken", "tok")],
      cookies := [("csrftoken", "c")] }
    [.headHome, .postLogin "user" "pw"]
    rfl

/-! ## Claim C8: missing `[app]`/`debug` configuration -/

/-- Counterexample to C8 as stated: with an `[app]` section present but no
`debug` key in it, the orchestrator's `debug` variable ends up holding
Python `None` (the `SectionProxy.getboolean` fallback), which is not the
value `False` the claim asserts — even though no exception is raised. -/
theorem computeDebug_missing_key_not_false :
    computeDebug { sections := [("app", [])] } = .ok .noneV
    ∧ (Except.ok DebugVal.noneV : Except PyErr DebugVal) ≠ .ok (.boolV false) := by
  constructor
  · rfl
  · intro hcontra
    simp at hcontra

/-- C8 amended: when the configuration has no `[app]` section or no `debug`
key, no exception propagates and the resulting `debug` value is falsy —
`False` when the section is missing (the caught `KeyError` branch), Python
`None` when only the key is missing (the `getboolean` fallback) — so the
single-station debug filter is not applied either way. -/
theorem computeDebug_defaults_falsy (config : ConfigFile) :
    (configSection config "app" = none →
        computeDebug config = .ok (.boolV false)
        ∧ ∀ stations, debugFilter (.boolV false) stations = stations)
    ∧ (∀ sec, configSection config "app" = some sec →
        alistGet sec "debug" = none →
        computeDebug config = .ok .noneV
        ∧ ∀ stations, debugFilter .noneV stations = stations) := by
  constructor
  · intro h
    refine ⟨?_, fun stations => by simp [debugFilter, DebugVal.truthy]⟩
    simp only [computeDebug, h]
  · intro sec hsec hkey
    refine ⟨?_, fun stations => by simp [debugFilter, DebugVal.truthy]⟩
    simp only [computeDebug, hsec, getboolean, hkey]

/-- Witness for C8 (amended) at a configuration whose `[app]` section lacks
the `debug` key. -/
theorem computeDebug_defaults_falsy_witness :
    computeDebug { sections := [("app", [("other", "1")])] } = .ok .noneV
    ∧ debugFilter .noneV [{ stationId := "X" }] = [{ stationId := "X" }] := by
  have h := (computeDebug_defaults_falsy { sections := [("app", [("other", "1")])] }).2
    [("other", "1")] rfl rfl
  exact ⟨h.1, h.2 _⟩

/-! ## Claim C9: `_send` leaks extra headers into the instance dict -/

theorem spotify_send_none (s : SpotifyState) (endpoint : String) (method : Method)
    (params : Dict) (data : Option ReqBody) :
    spotify_send s endpoint method none params data
      = (s, { endpoint := endpoint, method := method, headers := s.headers,
              params := params, data := data }) := rfl

theorem create_playlist_spec (env : SpotifyEnv) (s : SpotifyState) (name : String) :
    create_playlist env s name
      = ({ headers := dictUpdate s.headers [("Content-Type", "application/json")],
           userId := if pyTruthy s.userId then s.userId else some env.meId },
         (if pyTruthy s.userId then ([] : List SpotifyRequest) else [meRequest s])
           ++ [createPlaylistRequest s
                (if pyTruthy s.userId then s.userId.getD "" else env.meId) name],
         env.playlistId name) := by
  unfold create_playlist get_current_user spotify_send meRequest createPlaylistRequest
  by_cases hu : pyTruthy s.userId <;> simp [hu, dictTruthy]

/-- C9: a truthy `extra_headers` argument to `_send` is merged permanently
into the instance's headers dict (the local variable aliases
`self.headers`), and the request goes out with that merged dict; hence
after any `create_playlist` call the instance headers contain
`Content-Type: application/json`, and every subsequent search request —
a plain GET — also carries that header. -/
theorem spotify_send_header_leak :
    (∀ (s : SpotifyState) (endpoint : String) (method : Method) (eh params : Dict)
        (data : Option ReqBody), eh ≠ [] →
        (spotify_send s endpoint method (some eh) params data).1.headers
            = dictUpdate s.headers eh
        ∧ (spotify_send s endpoint method (some eh) params data).2.headers
            = dictUpdate s.headers eh)
    ∧ (∀ (env : SpotifyEnv) (s : SpotifyState) (name sname : String)
        (album artist : Option String),
        alistGet (create_playlist env s name).1.headers "Content-Type"
            = some "application/json"
        ∧ (search_song env (create_playlist env s name).1 sname album artist).2.1.map
            (fun r => alistGet r.headers "Content-Type")
            = [some "application/json"]) := by
  constructor
  · intro s endpoint method eh params data heh
    have htruthy : dictTruthy (some eh) = true := by
      cases eh with
      | nil => exact absurd rfl heh
      | cons p l => rfl
    unfold spotify_send
    rw [htruthy]
    exact ⟨rfl, rfl⟩
  · intro env s name sname album artist
    have hstate : alistGet (create_playlist env s name).1.headers "Content-Type"
        = some "application/json" := by
      rw [create_playlist_spec]
      simp [dictUpdate_single, alistGet_dictSet_self]
    refine ⟨hstate, ?_⟩
    unfold search_song
    simp only [spotify_send_none]
    by_cases h0 : (env.searchTracks (searchQuery sname album artist)).total = 0 <;>
      simp [h0, hstate]

/-- Witness for C9: merging a concrete `Content-Type` header into an empty
headers dict. -/
theorem spotify_send_header_leak_witness :
    (spotify_send { headers := [], userId := none } "/x" .POST
        (some [("Content-Type", "application/json")]) [] none).1.headers
      = dictUpdate [] [("Content-Type", "application/json")]
    ∧ (spotify_send { headers := [], userId := none } "/x" .POST
        (some [("Content-Type", "application/json")]) [] none).2.headers
      = dictUpdate [] [("Content-Type", "application/json")] :=
  spotify_send_header_leak.1 { headers := [], userId := none } "/x" .POST
    [("Content-Type", "application/json")] [] none (by simp)

/-! ## Claims C4 and C5: the two-tier search fallback -/

theorem find_song_uri_spec (env : SpotifyEnv) (s : SpotifyState) (song : Song) :
    find_song_uri env s song
      = (s, (find_song_queries env song).map (searchRequest s),
         find_song_result env song) := by
  unfold find_song_result find_song_uri find_song_queries search_song
  simp only [spotify_send_none]
  by_cases h1 : (env.searchTracks (searchQuery song.name none song.artist)).total = 0
  · by_cases h2 : (env.searchTracks (searchQuery song.name song.album song.artist)).total = 0
    · simp [h1, h2, searchRequest]
    · cases hitems : (env.searchTracks (searchQuery song.name song.album song.artist)).items with
      | nil => simp [h1, h2, hitems, searchRequest]
      | cons t ts => simp [h1, h2, hitems, searchRequest]
  · cases hitems : (env.searchTracks (searchQuery song.name none song.artist)).items with
    | nil => simp [h1, hitems, searchRequest]
    | cons t ts => simp [h1, hitems, searchRequest]

/-- C4: when the name+artist search reports zero hits but the
name+album+artist search returns at least one item, `find_song_uri` runs
the name+artist search first, retries exactly once with the album added,
and returns the `uri` of the first item of the second search. -/
theorem find_song_uri_album_fallback (env : SpotifyEnv) (s : SpotifyState)
    (song : Song) (t : Track) (ts : List Track) (tot : Nat)
    (h1 : (env.searchTracks (searchQuery song.name none song.artist)).total = 0)
    (h2 : env.searchTracks (searchQuery song.name song.album song.artist)
            = { total := tot, items := t :: ts })
    (htot : tot ≠ 0) :
    find_song_uri env s song
      = (s, [searchRequest s (searchQuery song.name none song.artist),
             searchRequest s (searchQuery song.name song.album song.artist)],
         .ok t.uri) := by
  have hq : find_song_queries env song
      = [searchQuery song.name none song.artist,
         searchQuery song.name song.album song.artist] := by
    unfold find_song_queries
    simp [h1]
  have hr : find_song_result env song = .ok t.uri := by
    unfold find_song_result find_song_uri search_song
    simp only [spotify_send_none]
    simp [h1, h2, htot]
  rw [find_song_uri_spec, hq, hr]
  simp

/-- Witness for C4 at a world where only the album-qualified query hits. -/
theorem find_song_uri_album_fallback_witness :
    find_song_uri
        { meId := "me",
          searchTracks := fun q =>
            if q == "track:A album:X" then { total := 1, items := [{ uri := "uriA" }] }
            else { total := 0, items := [] },
          playlistId := fun _ => "pid" }
        { headers := [], userId := none }
        { name := "A", album := some "X", artist := none }
      = ({ headers := [], userId := none },
         [searchRequest { headers := [], userId := none } "track:A",
          searchRequest { headers := [], userId := none } "track:A album:X"],
         .ok "uriA") := by
  have h := find_song_uri_album_fallback
    { meId := "me",
      searchTracks := fun q =>
        if q == "track:A album:X" then { total := 1, items := [{ uri := "uriA" }] }
        else { total := 0, items := [] },
      playlistId := fun _ => "pid" }
    { headers := [], userId := none }
    { name := "A", album := some "X", artist := none }
    { uri := "uriA" } [] 1 rfl rfl (by decide)
  exact h

/-- C5: when both the name+artist and the name+album+artist searches report
zero hits, `find_song_uri` propagates the second search's
`SongNotFoundError` (nothing catches it). -/
theorem find_song_uri_not_found (env : SpotifyEnv) (s : SpotifyState) (song : Song)
    (h1 : (env.searchTracks (searchQuery song.name none song.artist)).total = 0)
    (h2 : (env.searchTracks (searchQuery song.name song.album song.artist)).total = 0) :
    find_song_uri env s song
      = (s, [searchRequest s (searchQuery song.name none song.artist),
             searchRequest s (searchQuery song.name song.album song.artist)],
         .error .songNotFoundError) := by
  have hq : find_song_queries env song
      = [searchQuery song.name none song.artist,
         searchQuery song.name song.album song.artist] := by
    unfold find_song_queries
    simp [h1]
  have hr : find_song_result env song = .error .songNotFoundError := by
    unfold find_song_result find_song_uri search_song
    simp only [spotify_send_none]
    simp [h1, h2]
  rw [find_song_uri_spec, hq, hr]
  simp

/-- Witness for C5 at a world where every search misses. -/
theorem find_song_uri_not_found_witness :
    find_song_uri
        { meId := "me", searchTracks := fun _ => { total := 0, items := [] },
          playlistId := fun _ => "pid" }
        { headers := [], userId := none }
        { name := "A", album := some "X", artist := some "Z" }
      = ({ headers := [], userId := none },
         [searchRequest { headers := [], userId := none } "track:A artist:Z",
          searchRequest { headers := [], userId := none } "track:A artist:Z album:X"],
         .error .songNotFoundError) := by
  have h := find_song_uri_not_found
    { meId := "me", searchTracks := fun _ => { total := 0, items := [] },
      playlistId := fun _ => "pid" }
    { headers := [], userId := none }
    { name := "A", album := some "X", artist := some "Z" }
    rfl rfl
  exact h

/-! ## Claim C6: group import creates one playlist then aborts on a miss -/

theorem import_song_found (env : SpotifyEnv) (s : SpotifyState) (song : Song)
    (pid u : String) (h : find_song_result env song = .ok u) :
    import_song env s song pid
      = (s, (find_song_queries env song).map (searchRequest s)
              ++ [addTrackRequest s u pid], none) := by
  unfold import_song add_song_to_playlist
  simp only [find_song_uri_spec, spotify_send_none, h]
  simp [addTrackRequest]

theorem import_song_error (env : SpotifyEnv) (s : SpotifyState) (song : Song)
    (pid : String) (e : PyErr) (h : find_song_result env song = .error e) :
    import_song env s song pid
      = (s, (find_song_queries env song).map (searchRequest s), some e) := by
  unfold import_song
  simp only [find_song_uri_spec, h]

theorem groupImportLoop_abort (env : SpotifyEnv) (s : SpotifyState) (pid : String)
    (pre : List Song) (bad : Song) (rest : List Song)
    (hpre : ∀ song ∈ pre, ∃ u, find_song_result env song = .ok u)
    (hbad : find_song_result env bad = .error .songNotFoundError) :
    groupImportLoop env s (pre ++ bad :: rest) pid
      = (s, (pre.map (fun song =>
              (find_song_queries env song).map (searchRequest s)
                ++ [addTrackRequest s (okOrEmpty (find_song_result env song)) pid])).flatten
              ++ (find_song_queries env bad).map (searchRequest s),
         some .songNotFoundError) := by
  induction pre with
  | nil =>
    rw [List.nil_append]
    unfold groupImportLoop
    simp only [import_song_error env s bad pid .songNotFoundError hbad]
    simp
  | cons song pre ih =>
    obtain ⟨u, hu⟩ := hpre song (List.mem_cons_self _ _)
    rw [List.cons_append]
    unfold groupImportLoop
    simp only [import_song_found env s song pid u hu]
    rw [ih (fun song' hs' => hpre song' (List.mem_cons_of_mem _ hs'))]
    simp [okOrEmpty, hu, List.append_assoc]

/-- C6: with the group's songs split as matched prefix `pre`, first
unmatched song `bad`, and remainder `rest`, `import_song_group` issues the
playlist-creation call first (the whole trace prefix is that call's
requests), then the per-song requests for `pre` in order, then only the
failed lookups for `bad`, and aborts with `SongNotFoundError` — nothing of
`rest` is touched and `bad` is never added; the full trace contains exactly
one playlist-creation request, named after the group. -/
theorem import_song_group_abort_policy (env : SpotifyEnv) (s : SpotifyState)
    (group : SongGroup) (pre : List Song) (bad : Song) (rest : List Song)
    (hsongs : group.songs = pre ++ bad :: rest)
    (hpre : ∀ song ∈ pre, ∃ u, find_song_result env song = .ok u)
    (hbad : find_song_result env bad = .error .songNotFoundError) :
    import_song_group env s group
      = ((create_playlist env s group.name).1,
         (create_playlist env s group.name).2.1
           ++ ((pre.map (fun song =>
                  (find_song_queries env song).map
                      (searchRequest (create_playlist env s group.name).1)
                    ++ [addTrackRequest (create_playlist env s group.name).1
                          (okOrEmpty (find_song_result env song))
                          (create_playlist env s group.name).2.2])).flatten
               ++ (find_song_queries env bad).map
                    (searchRequest (create_playlist env s group.name).1)),
         some .songNotFoundError)
    ∧ (import_song_group env s group).2.1.filter isPlaylistCreateReq
        = [createPlaylistRequest s
            (if pyTruthy s.userId then s.userId.getD "" else env.meId) group.name] := by
  have hmain : import_song_group env s group
      = ((create_playlist env s group.name).1,
         (create_playlist env s group.name).2.1
           ++ ((pre.map (fun song =>
                  (find_song_queries env song).map
                      (searchRequest (create_playlist env s group.name).1)
                    ++ [addTrackRequest (create_playlist env s group.name).1
                          (okOrEmpty (find_song_result env song))
                          (create_playlist env s group.name).2.2])).flatten
               ++ (find_song_queries env bad).map
                    (searchRequest (create_playlist env s group.name).1)),
         some .songNotFoundError) := by
    unfold import_song_group
    rw [hsongs]
    simp only [groupImportLoop_abort env (create_playlist env s group.name).1
      (create_playlist env s group.name).2.2 pre bad rest hpre hbad]
  refine ⟨hmain, ?_⟩
  rw [hmain]
  simp only [create_playlist_spec]
  rw [List.filter_append, List.filter_append, List.filter_append]
  have hsongs0 : ∀ (l : List SpotifyRequest),
      (∀ r ∈ l, isPlaylistCreateReq r = false) → l.filter isPlaylistCreateReq = [] :=
    fun l h => List.filter_eq_nil_iff.mpr (fun a ha => by simp [h a ha])
  have hflat : ((pre.map (fun song =>
        (find_song_queries env song).map
            (searchRequest (create_playlist env s group.name).1)
          ++ [addTrackRequest (create_playlist env s group.name).1
                (okOrEmpty (find_song_result env song))
                (create_playlist env s group.name).2.2])).flatten).filter
          isPlaylistCreateReq = [] := by
    apply hsongs0
    intro r hr
    rw [List.mem_flatten] at hr
    obtain ⟨l, hl, hrl⟩ := hr
    rw [List.mem_map] at hl
    obtain ⟨song, -, hleq⟩ := hl
    rw [← hleq, List.mem_append] at hrl
    rcases hrl with hrl | hrl
    · rw [List.mem_map] at hrl
      obtain ⟨q, -, hq⟩ := hrl
      rw [← hq]
      rfl
    · rw [List.mem_singleton] at hrl
      rw [hrl]
      rfl
  have hbadreqs : (((find_song_queries env bad).map
        (searchRequest (create_playlist env s group.name).1)).filter
          isPlaylistCreateReq) = [] := by
    apply hsongs0
    intro r hr
    rw [List.mem_map] at hr
    obtain ⟨q, -, hq⟩ := hr
    rw [← hq]
    rfl
  simp only [create_playlist_spec] at hflat hbadreqs
  rw [hflat, hbadreqs]
  by_cases hu : pyTruthy s.userId <;>
    simp [hu, isPlaylistCreateReq, meRequest, createPlaylistRequest]

/-- Witness for C6: a two-song group whose second song cannot be matched is
aborted with `SongNotFoundError` after exactly one playlist creation named
after the group. -/
theorem import_song_group_abort_policy_witness :
    (import_song_group
        { meId := "me",
          searchTracks := fun q =>
            if q == "track:A" then { total := 1, items := [{ uri := "uriA" }] }
            else { total := 0, items := [] },
          playlistId := fun _ => "pid" }
        { headers := [], userId := none }
        { name := "G", songs := [{ name := "A", album := none, artist := none },
                                 { name := "B", album := none, artist := none }] }).2.2
      = some .songNotFoundError
    ∧ (import_song_group
        { meId := "me",
          searchTracks := fun q =>
            if q == "track:A" then { total := 1, items := [{ uri := "uriA" }] }
            else { total := 0, items := [] },
          playlistId := fun _ => "pid" }
        { headers := [], userId := none }
        { name := "G", songs := [{ name := "A", album := none, artist := none },
                                 { name := "B", album := none, artist := none }] }).2.1.filter
          isPlaylistCreateReq
      = [createPlaylistRequest { headers := [], userId := none } "me" "G"] := by
  have h := import_song_group_abort_policy
    { meId := "me",
      searchTracks := fun q =>
        if q == "track:A" then { total := 1, items := [{ uri := "uriA" }] }
        else { total := 0, items := [] },
      playlistId := fun _ => "pid" }
    { headers := [], userId := none }
    { name := "G", songs := [{ name := "A", album := none, artist := none },
                             { name := "B", album := none, artist := none }] }
    [{ name := "A", album := none, artist := none }]
    { name := "B", album := none, artist := none } [] rfl
    (fun song hs => by
      rw [List.mem_singleton] at hs
      subst hs
      exact ⟨"uriA", rfl⟩)
    rfl
  exact ⟨by rw [h.1], by simpa using h.2⟩

/-! ## Claim C3: parsing the operator-typed redirect string -/

/-- C3: the redirect string falls into exactly three outcomes — a
`?code=`-prefixed string yields the trailing code, an
`?error=access_denied`-prefixed string raises `AuthorizationError`, and a
string matching neither pattern raises `AuthorizationError`. -/
theorem authorize_user_three_outcomes (aenv : SpotifyAuthEnv) :
    (∀ code, aenv.userRedirect = AUTH_REDIRECT_URI ++ "?code=" ++ code →
        authorize_user aenv = .ok code)
    ∧ (reMatchStart (AUTH_REDIRECT_URI ++ "?error=access_denied") aenv.userRedirect = true →
        authorize_user aenv = .error .authorizationError)
    ∧ (reMatchStart (AUTH_REDIRECT_URI ++ "?code=") aenv.userRedirect = false →
        reMatchStart (AUTH_REDIRECT_URI ++ "?error=access_denied") aenv.userRedirect = false →
        authorize_user aenv = .error .authorizationError) := by
  refine ⟨?_, ?_, ?_⟩
  · intro code hred
    have hdeny : reMatchStart (AUTH_REDIRECT_URI ++ "?error=access_denied")
        aenv.userRedirect = false := by
      rw [hred]
      by_contra hcon
      rw [Bool.not_eq_false] at hcon
      unfold reMatchStart at hcon
      rw [List.isPrefixOf_iff_prefix] at hcon
      have hcode : (AUTH_REDIRECT_URI ++ "?code=").data
          <+: (AUTH_REDIRECT_URI ++ "?code=" ++ code).data := by
        rw [String.data_append]
        exact List.prefix_append _ _
      have hlen : (AUTH_REDIRECT_URI ++ "?code=").data.length
          ≤ (AUTH_REDIRECT_URI ++ "?error=access_denied").data.length := by decide
      have habs := List.prefix_of_prefix_length_le hcode hcon hlen
      revert habs
      decide
    have haccept : reMatchStart (AUTH_REDIRECT_URI ++ "?code=")
        aenv.userRedirect = true := by
      rw [hred]
      unfold reMatchStart
      rw [List.isPrefixOf_iff_prefix, String.data_append]
      exact List.prefix_append _ _
    have hdrop : strDropChars aenv.userRedirect
        (AUTH_REDIRECT_URI.length + "?code=".length) = code := by
      rw [hred]
      unfold strDropChars
      rw [String.data_append]
      have hlen2 : AUTH_REDIRECT_URI.length + "?code=".length
          = (AUTH_REDIRECT_URI ++ "?code=").data.length := by decide
      rw [hlen2, List.drop_left]
    simp only [authorize_user, hdeny, haccept]
    simp [hdrop]
  · intro hdeny
    simp [authorize_user, hdeny]
  · intro hcode hdeny
    simp [authorize_user, hcode, hdeny]

/-- Witness for C3: the three concrete redirect strings from the spec. -/
theorem authorize_user_three_outcomes_witness :
    authorize_user
        { cacheFile := none,
          tokenForRefresh := fun _ =>
            { status := 400, access_token := none, refresh_token := none },
          tokenForCode := fun _ =>
            { status := 400, access_token := none, refresh_token := none },
          userRedirect := "http://localhost/auth/?code=ABC123" }
      = .ok "ABC123"
    ∧ authorize_user
        { cacheFile := none,
          tokenForRefresh := fun _ =>
            { status := 400, access_token := none, refresh_token := none },
          tokenForCode := fun _ =>
            { status := 400, access_token := none, refresh_token := none },
          userRedirect := "http://localhost/auth/?error=access_denied" }
      = .error .authorizationError
    ∧ authorize_user
        { cacheFile := none,
          tokenForRefresh := fun _ =>
            { status := 400, access_token := none, refresh_token := none },
          tokenForCode := fun _ =>
            { status := 400, access_token := none, refresh_token := none },
          userRedirect := "not-a-url" }
      = .error .authorizationError := by
  refine ⟨?_, ?_, ?_⟩
  · exact (authorize_user_three_outcomes _).1 "ABC123" rfl
  · exact (authorize_user_three_outcomes _).2.1 (by decide)
  · exact (authorize_user_three_outcomes _).2.2 (by decide) (by decide)

/-! ## Claim C2: refresh-then-authorize fallback chain -/

theorem authorize_user_error_is_auth (aenv : SpotifyAuthEnv) (e : PyErr)
    (h : authorize_user aenv = .error e) : e = .authorizationError := by
  unfold authorize_user at h
  by_cases hd : reMatchStart (AUTH_REDIRECT_URI ++ "?error=access_denied")
      aenv.userRedirect = true
  · simp only [hd, if_true] at h
    exact (Except.error.inj h).symm
  · simp only [hd, if_false, Bool.not_eq_true] at h
    by_cases ha : reMatchStart (AUTH_REDIRECT_URI ++ "?code=") aenv.userRedirect = true
    · rw [ha] at h
      simp at h
    · rw [Bool.not_eq_true] at ha
      rw [ha] at h
      simp only [Bool.not_false, if_true] at h
      exact (Except.error.inj h).symm

theorem authorize_code_path_cases (aenv : SpotifyAuthEnv) (s : SpotifyState)
    (hwfc : ∀ c, (aenv.tokenForCode c).status = 200 →
      (aenv.tokenForCode c).access_token ≠ none
      ∧ (aenv.tokenForCode c).refresh_token ≠ none) :
    (authorize_code_path aenv s).err = some .authorizationError
    ∨ ((authorize_code_path aenv s).err = none
        ∧ ∃ tok, (authorize_code_path aenv s).state.headers
            = [("Authorization", "Bearer " ++ tok)]) := by
  cases hau : authorize_user aenv with
  | error e =>
    have he := authorize_user_error_is_auth aenv e hau
    subst he
    left
    simp only [authorize_code_path, hau]
  | ok code =>
    by_cases hst : (aenv.tokenForCode code).status = 200
    · obtain ⟨hac, hrt⟩ := hwfc code hst
      cases hat : (aenv.tokenForCode code).access_token with
      | none => exact absurd hat hac
      | some tok =>
        cases hrtv : (aenv.tokenForCode code).refresh_token with
        | none => exact absurd hrtv hrt
        | some rt =>
          right
          have hgoal : authorize_code_path aenv s
              = { state := { s with headers := [("Authorization", "Bearer " ++ tok)] },
                  fileWritten := some rt, err := none } := by
            simp only [authorize_code_path, hau, handle_auth_response,
              if_neg (not_not_intro hst), hat, hrtv]
          rw [hgoal]
          exact ⟨rfl, tok, rfl⟩
    · left
      have hgoal : authorize_code_path aenv s
          = { state := s, fileWritten := none, err := some .authorizationError } := by
        simp only [authorize_code_path, hau, handle_auth_response, if_pos hst]
      rw [hgoal]

/-- C2: `_authorize` catches only the refresh path's `AuthorizationError`
(missing cache file or rejected refresh), falling through to the
interactive path; under well-formed 200 token responses every execution
either installs a Bearer header with no error or propagates
`AuthorizationError`; and a non-`AuthorizationError` failure in the refresh
chain (here a `KeyError` for a 200 response without `access_token`) is
propagated, not swallowed. -/
theorem spotify_authorize_fallback_dichotomy (aenv : SpotifyAuthEnv) (s : SpotifyState) :
    (aenv.cacheFile = none → spotify_authorize aenv s = authorize_code_path aenv s)
    ∧ (∀ cached, aenv.cacheFile = some cached →
        (aenv.tokenForRefresh cached).status ≠ 200 →
        spotify_authorize aenv s = authorize_code_path aenv s)
    ∧ ((∀ t, (aenv.tokenForRefresh t).status = 200 →
          (aenv.tokenForRefresh t).access_token ≠ none) →
       (∀ c, (aenv.tokenForCode c).status = 200 →
          (aenv.tokenForCode c).access_token ≠ none
          ∧ (aenv.tokenForCode c).refresh_token ≠ none) →
        (spotify_authorize aenv s).err = some .authorizationError
        ∨ ((spotify_authorize aenv s).err = none
            ∧ ∃ tok, (spotify_authorize aenv s).state.headers
                = [("Authorization", "Bearer " ++ tok)]))
    ∧ (∀ cached, aenv.cacheFile = some cached →
        (aenv.tokenForRefresh cached).status = 200 →
        (aenv.tokenForRefresh cached).access_token = none →
        spotify_authorize aenv s
          = { state := s, fileWritten := none, err := some .keyError }) := by
  have hnone : aenv.cacheFile = none →
      spotify_authorize aenv s = authorize_code_path aenv s := by
    intro h
    unfold spotify_authorize spotify_refresh_auth
    simp only [h]
  have hrej : ∀ cached, aenv.cacheFile = some cached →
      (aenv.tokenForRefresh cached).status ≠ 200 →
      spotify_authorize aenv s = authorize_code_path aenv s := by
    intro cached hc hst
    unfold spotify_authorize spotify_refresh_auth handle_auth_response
    simp only [hc, if_pos hst]
  have hkey : ∀ cached, aenv.cacheFile = some cached →
      (aenv.tokenForRefresh cached).status = 200 →
      (aenv.tokenForRefresh cached).access_token = none →
      spotify_authorize aenv s
        = { state := s, fileWritten := none, err := some .keyError } := by
    intro cached hc hst hat
    unfold spotify_authorize spotify_refresh_auth handle_auth_response
    simp only [hc, if_neg (not_not_intro hst), hat]
  refine ⟨hnone, hrej, ?_, hkey⟩
  intro hwfr hwfc
  cases hfile : aenv.cacheFile with
  | none =>
    rw [hnone hfile]
    exact authorize_code_path_cases aenv s hwfc
  | some cached =>
    by_cases hst : (aenv.tokenForRefresh cached).status = 200
    · cases hat : (aenv.tokenForRefresh cached).access_token with
      | none => exact absurd hat (hwfr cached hst)
      | some tok =>
        have hsucc : spotify_authorize aenv s
            = { state := { s with headers := [("Authorization", "Bearer " ++ tok)] },
                fileWritten := none, err := none } := by
          unfold spotify_authorize spotify_refresh_auth handle_auth_response
          simp only [hfile, if_neg (not_not_intro hst), hat]
        rw [hsucc]
        exact Or.inr ⟨rfl, tok, rfl⟩
    · rw [hrej cached hfile hst]
      exact authorize_code_path_cases aenv s hwfc

/-- Witness for C2 at a world with a cached refresh token the endpoint
accepts: the dichotomy lands in the installed-Bearer-header branch. -/
theorem spotify_authorize_fallback_dichotomy_witness :
    (spotify_authorize
        { cacheFile := some "rt",
          tokenForRefresh := fun _ =>
            { status := 200, access_token := some "at", refresh_token := none },
          tokenForCode := fun _ =>
            { status := 200, access_token := some "at2", refresh_token := some "rt2" },
          userRedirect := "x" }
        { headers := [], userId := none }).err = some .authorizationError
    ∨ ((spotify_authorize
        { cacheFile := some "rt",
          tokenForRefresh := fun _ =>
            { status := 200, access_token := some "at", refresh_token := none },
          tokenForCode := fun _ =>
            { status := 200, access_token := some "at2", refresh_token := some "rt2" },
          userRedirect := "x" }
        { headers := [], userId := none }).err = none
        ∧ ∃ tok, (spotify_authorize
            { cacheFile := some "rt",
              tokenForRefresh := fun _ =>
                { status := 200, access_token := some "at", refresh_token := none },
              tokenForCode := fun _ =>
                { status := 200, access_token := some "at2", refresh_token := some "rt2" },
              userRedirect := "x" }
            { headers := [], userId := none }).state.headers
          = [("Authorization", "Bearer " ++ tok)]) :=
  (spotify_authorize_fallback_dichotomy
      { cacheFile := some "rt",
        tokenForRefresh := fun _ =>
          { status := 200, access_token := some "at", refresh_token := none },
        tokenForCode := fun _ =>
          { status := 200, access_token := some "at2", refresh_token := some "rt2" },
        userRedirect := "x" }
      { headers := [], userId := none }).2.2.1
    (fun t ht => by simp)
    (fun c hc => by simp)

end PandoraToSpotify
